import Mathlib

/-!
Verification of the Pravha disaster-mesh core
(`backend/mesh_network/core/mesh_node.py`,
 `backend/mesh_network/core/message_handler.py`,
 `backend/mesh_network/models/message_models.py`)
against its natural-language specification.

The Python classes are shallowly embedded as pure Lean functions over
explicit state records.  Wall-clock instants (`datetime`) are modelled as
integer seconds, so `(now - message.timestamp).total_seconds()` becomes
`now - message.timestamp : Int`.  Python dicts keyed by strings become
association lists with first-key-wins lookup, and the serialized wire
format is abstracted by an explicit deserializer argument
`List Nat → Option Message` (`None` models a `decode`/`json.loads`/
validation failure caught by the surrounding `try`).  Handler callables
are modelled by their observable effect: the list of messages dispatched
to them, plus (for the router) a raise/no-raise flag per handler.
-/

namespace DisasterMesh

/-- Message type discriminator, from `message_models.MessageType`. -/
inductive MessageType where
  | SOS
  | WARNING
  | LOCATION_UPDATE
  | FLOOD_ALERT
  | EVACUATION_ORDER
  | RESOURCE_REQUEST
  | STATUS_UPDATE
deriving DecidableEq, Repr

/-- Priority levels, from `message_models.Priority` (an `int` enum). -/
inductive Priority where
  | LOW
  | NORMAL
  | HIGH
  | EMERGENCY
  | CRITICAL
deriving DecidableEq, Repr

/-- The integer value of each priority, as in the Python `int` enum. -/
def Priority.val : Priority → Nat
  | .LOW => 1
  | .NORMAL => 2
  | .HIGH => 3
  | .EMERGENCY => 4
  | .CRITICAL => 5

/-- `list(Priority)`: the priorities in declaration order. -/
def Priority.all : List Priority :=
  [.LOW, .NORMAL, .HIGH, .EMERGENCY, .CRITICAL]

/-- Geolocation payload (`Dict[str, float]` in the source; the mesh core
never inspects the numeric values, so they are carried opaquely). -/
abbrev Coordinates := List (String × Int)

/-- `message_models.BaseMessage`. -/
structure Message where
  id : String
  type : MessageType
  priority : Priority
  timestamp : Int
  source_device_id : String
  content : String
  coordinates : Option Coordinates
  hop_count : Int
  max_hops : Int
  ttl : Int
  signature : Option String
deriving DecidableEq, Repr

/-- Peer record stored in `MeshNode.connected_nodes`. -/
structure PeerInfo where
  address : String
  last_seen : Int
  signal_strength : Option Int
deriving DecidableEq, Repr

/-- The mutable state of a `MeshNode`. -/
structure NodeState where
  device_id : String
  is_active : Bool
  connected_nodes : List (String × PeerInfo)
  message_cache : List (String × Message)
  pending_messages : List Message
  messages_sent : Nat
  messages_received : Nat
  messages_relayed : Nat
deriving DecidableEq, Repr

/-- `message.id in self.message_cache` (dict key lookup). -/
def dictContains (k : String) : List (String × Message) → Bool
  | [] => false
  | (k', _) :: rest => k' == k || dictContains k rest

/-- `self.message_cache[k] = v` (dict assignment: replace in place if the
key is present, otherwise append). -/
def dictInsert (k : String) (v : Message) : List (String × Message) → List (String × Message)
  | [] => [(k, v)]
  | (k', v') :: rest => if k' == k then (k, v) :: rest else (k', v') :: dictInsert k v rest

/-- `MeshNode._process_received_data`, after a successful deserialization.
Returns the new node state together with the list of messages dispatched
to `_handle_received_message` (registered type handler plus the general
message callback); an empty list means no handler or callback ran.

The Python code stores the message object in the cache and *then*
increments `hop_count` on that same (aliased) object, so the cached,
dispatched and enqueued copies all carry `hop_count + 1`. -/
def process_parsed_message (now : Int) (s : NodeState) (message : Message) :
    NodeState × List Message :=
  if dictContains message.id s.message_cache then (s, [])
  else if now - message.timestamp > message.ttl then (s, [])
  else if message.max_hops ≤ message.hop_count then (s, [])
  else
    let message' := { message with hop_count := message.hop_count + 1 }
    ({ s with
        message_cache := dictInsert message.id message' s.message_cache
        pending_messages := s.pending_messages ++ [message']
        messages_received := s.messages_received + 1 },
     [message'])

/-- `MeshNode._process_received_data`: deserialize the raw bytes (any
`UnicodeDecodeError` / `json.JSONDecodeError` / pydantic validation error
is modelled by the deserializer returning `none`, which the handler's
`try`/`except` turns into a silent discard), then process the message. -/
def process_received_data (deser : List Nat → Option Message) (now : Int)
    (s : NodeState) (data : List Nat) : NodeState × List Message :=
  match deser data with
  | none => (s, [])
  | some message => process_parsed_message now s message

/-- `MeshNode.send_message`.  `loc` is the (optional) truthy result of the
optional location callback.  Returns the new state, the stamped message,
and the boolean result. -/
def send_message (now : Int) (loc : Option Coordinates) (s : NodeState)
    (message : Message) : NodeState × Message × Bool :=
  let m1 := { message with source_device_id := s.device_id, timestamp := now }
  let m2 := match loc with
    | some l => { m1 with coordinates := some l }
    | none => m1
  ({ s with
      message_cache := dictInsert m2.id m2 s.message_cache
      pending_messages := s.pending_messages ++ [m2]
      messages_sent := s.messages_sent + 1 },
   m2, true)

/-- `MeshNode._send_pending_messages`: write up to 3 messages from the
front of the pending queue to the connected peer.  Returns the new state
and the list of messages written. -/
def send_pending_messages (s : NodeState) : NodeState × List Message :=
  if s.pending_messages.isEmpty then (s, [])
  else
    let messages_to_send := s.pending_messages.take 3
    ({ s with messages_relayed := s.messages_relayed + messages_to_send.length },
     messages_to_send)

/-- One iteration of `MeshNode._message_processor_loop`: drop pending
messages whose age has reached their `ttl`. -/
def message_processor_step (now : Int) (s : NodeState) : NodeState :=
  { s with pending_messages :=
      s.pending_messages.filter (fun msg => decide (now - msg.timestamp < msg.ttl)) }

/-- One iteration of `MeshNode._cleanup_loop`: evict cache entries older
than 3600 s and peer records unseen for more than 300 s. -/
def cleanup_step (now : Int) (s : NodeState) : NodeState :=
  { s with
      message_cache :=
        s.message_cache.filter (fun kv => decide (now - kv.2.timestamp ≤ 3600))
      connected_nodes :=
        s.connected_nodes.filter (fun kv => decide (now - kv.2.last_seen ≤ 300)) }

/-- The snapshot returned by `MeshNode.get_network_status`. -/
structure NetworkStatus where
  device_id : String
  is_active : Bool
  connected_nodes : Nat
  cached_messages : Nat
  pending_messages : Nat
  messages_sent : Nat
  messages_received : Nat
  messages_relayed : Nat
  connected_node_list : List String
deriving DecidableEq, Repr

/-- `MeshNode.get_network_status`. -/
def get_network_status (s : NodeState) : NetworkStatus :=
  { device_id := s.device_id
    is_active := s.is_active
    connected_nodes := s.connected_nodes.length
    cached_messages := s.message_cache.length
    pending_messages := s.pending_messages.length
    messages_sent := s.messages_sent
    messages_received := s.messages_received
    messages_relayed := s.messages_relayed
    connected_node_list := s.connected_nodes.map (fun kv => kv.1) }

/-- Case-sensitive check that the character sequence `ks` occurs as a
contiguous run at the head of `l`. -/
def headRun : List Char → List Char → Bool
  | [], _ => true
  | _ :: _, [] => false
  | a :: as, b :: bs => a == b && headRun as bs

/-- Python's `sub in s` on strings (viewed as character lists): `ks`
occurs contiguously somewhere in `l`. -/
def hasRun (ks : List Char) : List Char → Bool
  | [] => ks.isEmpty
  | l@(_ :: rest) => headRun ks l || hasRun ks rest

/-- Python's `str.lower()`, character-wise (ASCII letters; every keyword
character involved is ASCII, and non-letters pass through unchanged). -/
def lowerChar (c : Char) : Char :=
  if 65 ≤ c.toNat ∧ c.toNat ≤ 90 then Char.ofNat (c.toNat + 32) else c

/-- The keyword list of `MessageHandler._reprioritize_flood_messages`. -/
def floodKeywords : List String :=
  ["evacuation", "safety", "rescue", "emergency"]

/-- `any(keyword in message.content.lower() for keyword in [...])`. -/
def matchesFloodKeyword (m : Message) : Bool :=
  floodKeywords.any (fun k => hasRun k.data (m.content.data.map lowerChar))

/-- The per-priority queue table `MessageHandler.message_queue`. -/
abbrev Queues := Priority → List Message

/-- Point update of the queue table (dict assignment keyed by priority). -/
def qUpdate (q : Queues) (p : Priority) (l : List Message) : Queues :=
  fun p' => if p' = p then l else q p'

/-- The mutable state of a `MessageHandler` relevant to routing. -/
structure HandlerState where
  queues : Queues
  flood_mode : Bool

/-- `message.priority = Priority.EMERGENCY` (in-place overwrite). -/
def Message.setEmergency (m : Message) : Message :=
  { m with priority := .EMERGENCY }

/-- One move of `_reprioritize_flood_messages`'s inner loop: remove the
(first occurrence of the) message from bucket `p`, overwrite its priority
to EMERGENCY, and append it to the EMERGENCY bucket — in that order, as
in the source. -/
def moveOne (q : Queues) (p : Priority) (m : Message) : Queues :=
  let q1 := qUpdate q p ((q p).erase m)
  qUpdate q1 .EMERGENCY (q1 .EMERGENCY ++ [m.setEmergency])

/-- The body of `_reprioritize_flood_messages` for one priority level:
collect the keyword-matching messages of bucket `p`, then move each. -/
def reprioStep (q : Queues) (p : Priority) : Queues :=
  ((q p).filter matchesFloodKeyword).foldl (fun acc m => moveOne acc p m) q

/-- `MessageHandler._reprioritize_flood_messages`: sweep every priority
level in declaration order. -/
def reprioritize_flood_messages (q : Queues) : Queues :=
  Priority.all.foldl reprioStep q

/-- `MessageHandler._handle_flood_alert`: set flood mode and run the
reprioritization sweep. -/
def handle_flood_alert (s : HandlerState) : HandlerState :=
  { queues := reprioritize_flood_messages s.queues, flood_mode := true }

/-- `MessageHandler._handle_emergency_message`: call every registered
emergency handler in order; a raising handler (flag `true`) is caught,
logged, and does not stop the loop.  Each handler is modelled by its
raise flag; the result counts (invocations, logged failures). -/
def handle_emergency_message (emHandlers : List Bool) : Nat × Nat :=
  emHandlers.foldl
    (fun (acc : Nat × Nat) raises =>
      (acc.1 + 1, if raises then acc.2 + 1 else acc.2))
    (0, 0)

/-- Append a message to the queue matching its own priority field
(the first statement of `process_message`). -/
def enqueue (s : HandlerState) (m : Message) : HandlerState :=
  { s with queues := qUpdate s.queues m.priority (s.queues m.priority ++ [m]) }

/-- Observable outcome of one `MessageHandler.process_message` call. -/
structure ProcOutcome where
  state : HandlerState
  emergencyInvoked : Nat
  typeHandlerInvoked : Bool
  floodHandled : Bool
  result : Bool

/-- `MessageHandler.process_message`.  `typeHandlers t = some b` means a
handler is registered for type `t` and `b` tells whether it raises;
`emHandlers` are the registered emergency handlers' raise flags.
The whole body sits in a `try`/`except` returning `False`: an exception
escaping the registered type handler aborts the rest of the body (in
particular the flood-alert special handling), while emergency-handler
exceptions are already swallowed inside `_handle_emergency_message`. -/
def process_message (typeHandlers : MessageType → Option Bool)
    (emHandlers : List Bool) (s : HandlerState) (m : Message) : ProcOutcome :=
  let s1 := enqueue s m
  let emCount :=
    if Priority.EMERGENCY.val ≤ m.priority.val then
      (handle_emergency_message emHandlers).1
    else 0
  match typeHandlers m.type with
  | some true =>
      { state := s1, emergencyInvoked := emCount, typeHandlerInvoked := true,
        floodHandled := false, result := false }
  | some false =>
      let s2 := if m.type = MessageType.FLOOD_ALERT then handle_flood_alert s1 else s1
      { state := s2, emergencyInvoked := emCount, typeHandlerInvoked := true,
        floodHandled := decide (m.type = MessageType.FLOOD_ALERT), result := true }
  | none =>
      let s2 := if m.type = MessageType.FLOOD_ALERT then handle_flood_alert s1 else s1
      { state := s2, emergencyInvoked := emCount, typeHandlerInvoked := false,
        floodHandled := decide (m.type = MessageType.FLOOD_ALERT), result := true }

/-! ### Concrete fixtures used by witnesses and counterexamples -/

/-- A concrete well-formed message. -/
def sampleMessage : Message :=
  { id := "msg-1", type := .SOS, priority := .CRITICAL, timestamp := 0,
    source_device_id := "origin", content := "SOS from origin", coordinates := none,
    hop_count := 0, max_hops := 10, ttl := 3600, signature := none }

/-- A freshly constructed node with empty caches and queues. -/
def emptyNode : NodeState :=
  { device_id := "node-A", is_active := true, connected_nodes := [],
    message_cache := [], pending_messages := [], messages_sent := 0,
    messages_received := 0, messages_relayed := 0 }

/-- A node whose dedup cache already holds `sampleMessage`. -/
def cachedNode : NodeState :=
  { emptyNode with message_cache := [(sampleMessage.id, sampleMessage)] }

/-- A message whose age at `now = 5` equals its ttl exactly. -/
def boundaryMessage : Message :=
  { id := "cx-ttl", type := .WARNING, priority := .HIGH, timestamp := 0,
    source_device_id := "origin", content := "boundary", coordinates := none,
    hop_count := 0, max_hops := 10, ttl := 5, signature := none }

/-- A message that is strictly expired at `now = 6`. -/
def expiredMessage : Message :=
  { id := "cx-exp", type := .WARNING, priority := .HIGH, timestamp := 0,
    source_device_id := "origin", content := "expired", coordinates := none,
    hop_count := 0, max_hops := 10, ttl := 5, signature := none }

/-- A message that has already reached its relay ceiling. -/
def maxedMessage : Message :=
  { id := "cx-hop", type := .SOS, priority := .CRITICAL, timestamp := 0,
    source_device_id := "origin", content := "maxed", coordinates := none,
    hop_count := 10, max_hops := 10, ttl := 3600, signature := none }

/-! ### Claims about the mesh node -/

/-- Claim C1: if the id of an inbound message is already present in the
dedup cache, reprocessing the same raw bytes leaves the node state
unchanged — no type handler or message callback is invoked, the received
counter is not incremented, the pending queue does not grow, and the
cached message (in particular its hop count) is untouched. -/
theorem c1_duplicate_suppression (deser : List Nat → Option Message) (now : Int)
    (s : NodeState) (data : List Nat) (m : Message)
    (hd : deser data = some m)
    (hc : dictContains m.id s.message_cache = true) :
    process_received_data deser now s data = (s, []) := by
  simp [process_received_data, hd, process_parsed_message, hc]

/-- Witness for C1 at a concrete node whose cache holds the message. -/
theorem c1_duplicate_suppression_witness :
    dictContains sampleMessage.id cachedNode.message_cache = true
    ∧ process_received_data (fun _ => some sampleMessage) 0 cachedNode [] = (cachedNode, []) :=
  ⟨by decide,
   c1_duplicate_suppression (fun _ => some sampleMessage) 0 cachedNode [] sampleMessage rfl
     (by decide)⟩

/-- Claim C2 counterexample: a message whose age equals its ttl exactly
(`age ≥ ttl` but not `age > ttl`) is NOT discarded by the inbound path —
the code's strict test `age > message.ttl` lets it through, so it is
cached, handled and enqueued, and the received counter is incremented. -/
theorem c2_ttl_counterexample :
    ((5 : Int) - boundaryMessage.timestamp ≥ boundaryMessage.ttl)
    ∧ (process_parsed_message 5 emptyNode boundaryMessage).1.messages_received = 1
    ∧ ¬ (process_parsed_message 5 emptyNode boundaryMessage = (emptyNode, [])) := by
  exact ⟨by decide, by decide, by decide⟩

/-- Claim C2 (amended): the inbound path discards a message once its age
STRICTLY exceeds its ttl (nothing is cached, handled or enqueued), and
the dispatch-maintenance step keeps exactly the pending messages whose
age is still strictly below their ttl — every message whose age has
reached its ttl is pruned from the pending queue. -/
theorem c2_ttl_expiry (now : Int) (s : NodeState) (m : Message) :
    (m.ttl < now - m.timestamp → process_parsed_message now s m = (s, []))
    ∧ (∀ x ∈ (message_processor_step now s).pending_messages, now - x.timestamp < x.ttl)
    ∧ (∀ x ∈ s.pending_messages, now - x.timestamp < x.ttl →
        x ∈ (message_processor_step now s).pending_messages) := by
  refine ⟨?_, ?_, ?_⟩
  · intro h
    unfold process_parsed_message
    split_ifs <;> rfl
  · intro x hx
    simp only [message_processor_step, List.mem_filter, decide_eq_true_eq] at hx
    exact hx.2
  · intro x hx h
    simp only [message_processor_step, List.mem_filter, decide_eq_true_eq]
    exact ⟨hx, h⟩

/-- Witness for the amended C2 at a strictly expired concrete message. -/
theorem c2_ttl_expiry_witness :
    expiredMessage.ttl < (6 : Int) - expiredMessage.timestamp
    ∧ process_parsed_message 6 emptyNode expiredMessage = (emptyNode, []) :=
  ⟨by decide, (c2_ttl_expiry 6 emptyNode expiredMessage).1 (by decide)⟩

/-- Claim C3: a message whose hop count has reached (or exceeded) its
relay ceiling is dropped by the inbound path before any state change:
its hop count is never incremented again, it is never placed on the
pending-outbound queue, and — because the early return precedes local
dispatch — it is never handed to local handlers either. -/
theorem c3_hop_ceiling (now : Int) (s : NodeState) (m : Message)
    (h : m.max_hops ≤ m.hop_count) :
    process_parsed_message now s m = (s, []) := by
  unfold process_parsed_message
  split_ifs <;> rfl

/-- Witness for C3 at a concrete message with `hop_count = max_hops`. -/
theorem c3_hop_ceiling_witness :
    maxedMessage.max_hops ≤ maxedMessage.hop_count
    ∧ process_parsed_message 0 emptyNode maxedMessage = (emptyNode, []) :=
  ⟨by decide, c3_hop_ceiling 0 emptyNode maxedMessage (by decide)⟩

/-- Claim C7: when deserialization of inbound raw bytes fails, the
inbound-processing operation returns without touching any node state —
dedup cache, pending queue, peer table and all counters are exactly as
before, and no handler is invoked. -/
theorem c7_malformed_data_no_effect (deser : List Nat → Option Message) (now : Int)
    (s : NodeState) (data : List Nat) (hd : deser data = none) :
    process_received_data deser now s data = (s, []) := by
  simp [process_received_data, hd]

/-- Witness for C7 with a deserializer that always fails. -/
theorem c7_malformed_data_no_effect_witness :
    (fun (_ : List Nat) => (none : Option Message)) [0, 1, 2] = none
    ∧ process_received_data (fun _ => none) 0 cachedNode [0, 1, 2] = (cachedNode, []) :=
  ⟨rfl, c7_malformed_data_no_effect (fun _ => none) 0 cachedNode [0, 1, 2] rfl⟩

/-- Claim C5: `send` stamps the node's device id and the current time
onto the message (keeping its id), registers the stamped message in the
dedup cache under that id, appends it to the pending-outbound queue,
increments the sent counter by exactly one, and returns success — all
independently of the peer table, so queuing succeeds with zero reachable
peers. -/
theorem c5_send_always_queues (now : Int) (loc : Option Coordinates)
    (s : NodeState) (m : Message) :
    (send_message now loc s m).2.2 = true
    ∧ (send_message now loc s m).2.1.source_device_id = s.device_id
    ∧ (send_message now loc s m).2.1.timestamp = now
    ∧ (send_message now loc s m).2.1.id = m.id
    ∧ (send_message now loc s m).1.message_cache
        = dictInsert m.id (send_message now loc s m).2.1 s.message_cache
    ∧ (send_message now loc s m).1.pending_messages
        = s.pending_messages ++ [(send_message now loc s m).2.1]
    ∧ (send_message now loc s m).1.messages_sent = s.messages_sent + 1
    ∧ (send_message now loc s m).1.connected_nodes = s.connected_nodes
    ∧ (∀ peers,
        (send_message now loc { s with connected_nodes := peers } m).2.1
          = (send_message now loc s m).2.1
        ∧ (send_message now loc { s with connected_nodes := peers } m).2.2 = true
        ∧ (send_message now loc { s with connected_nodes := peers } m).1.pending_messages
          = (send_message now loc s m).1.pending_messages) := by
  cases loc <;> simp [send_message]

/-- Claim C8: a single peer-session exchange writes at most 3 messages,
never more than the queue holds, takes them from the front of the queue
in order, and bumps the relayed counter by exactly one per message
written. -/
theorem c8_bounded_relay_batch (s : NodeState) :
    (send_pending_messages s).2.length ≤ 3
    ∧ (send_pending_messages s).2.length ≤ s.pending_messages.length
    ∧ (∃ rest, (send_pending_messages s).2 ++ rest = s.pending_messages)
    ∧ (send_pending_messages s).1.messages_relayed
        = s.messages_relayed + (send_pending_messages s).2.length := by
  unfold send_pending_messages
  split
  · simp
  · refine ⟨?_, ?_, ⟨s.pending_messages.drop 3, List.take_append_drop 3 _⟩, rfl⟩
    · rw [List.length_take]
      exact min_le_left 3 _
    · rw [List.length_take]
      exact min_le_right 3 _

/-- Claim C9: one cleanup step removes every peer record unseen for more
than 300 seconds, making its identifier absent from
`get_network_status().connected_node_list`, while peers refreshed within
the last 300 seconds are retained in that list. -/
theorem c9_peer_staleness (now : Int) (s : NodeState) (k : String) :
    ((∀ info : PeerInfo, (k, info) ∈ s.connected_nodes → 300 < now - info.last_seen) →
        k ∉ (get_network_status (cleanup_step now s)).connected_node_list)
    ∧ (∀ info : PeerInfo, (k, info) ∈ s.connected_nodes → now - info.last_seen ≤ 300 →
        k ∈ (get_network_status (cleanup_step now s)).connected_node_list) := by
  constructor
  · intro h hk
    simp only [get_network_status, cleanup_step, List.mem_map, List.mem_filter,
      decide_eq_true_eq] at hk
    obtain ⟨kv, ⟨hmem, hfresh⟩, hfst⟩ := hk
    have : (k, kv.2) ∈ s.connected_nodes := by
      have hkv : kv = (k, kv.2) := by
        cases kv
        simp_all
      exact hkv ▸ hmem
    exact absurd (h kv.2 this) (by omega)
  · intro info hmem hfresh
    simp only [get_network_status, cleanup_step, List.mem_map, List.mem_filter,
      decide_eq_true_eq]
    exact ⟨(k, info), ⟨hmem, hfresh⟩, rfl⟩

/-- A stale peer record (last seen at time 0). -/
def stalePeer : PeerInfo := { address := "addr-a", last_seen := 0, signal_strength := none }

/-- A fresh peer record (last seen at time 350). -/
def freshPeer : PeerInfo := { address := "addr-b", last_seen := 350, signal_strength := none }

/-- A node that knows one stale and one fresh peer. -/
def peerNode : NodeState :=
  { emptyNode with connected_nodes := [("old-node", stalePeer), ("new-node", freshPeer)] }

/-- Witness for C9 at time 400: the stale peer vanishes from the status
list, the fresh one stays. -/
theorem c9_peer_staleness_witness :
    "old-node" ∉ (get_network_status (cleanup_step 400 peerNode)).connected_node_list
    ∧ "new-node" ∈ (get_network_status (cleanup_step 400 peerNode)).connected_node_list := by
  constructor
  · refine (c9_peer_staleness 400 peerNode "old-node").1 ?_
    intro info hm
    simp [peerNode, emptyNode] at hm
    subst hm
    decide
  · exact (c9_peer_staleness 400 peerNode "new-node").2 freshPeer (by decide) (by decide)

/-- The batch written by one exchange is always the first three pending
messages (empty queue included). -/
lemma spm_snd (s : NodeState) :
    (send_pending_messages s).2 = s.pending_messages.take 3 := by
  unfold send_pending_messages
  split
  · rename_i h
    rw [List.isEmpty_iff] at h
    rw [h]
    rfl
  · rfl

/-- One exchange bumps the relayed counter by the batch size. -/
lemma spm_relayed (s : NodeState) :
    (send_pending_messages s).1.messages_relayed
      = s.messages_relayed + (send_pending_messages s).2.length := by
  unfold send_pending_messages
  split
  · simp
  · rfl

/-- One exchange leaves the pending queue untouched. -/
lemma spm_pending (s : NodeState) :
    (send_pending_messages s).1.pending_messages = s.pending_messages := by
  unfold send_pending_messages
  split <;> rfl

/-- Claim C10: writing pending messages to a peer never removes them from
the pending queue — the queue is left exactly as it was, so a relayed
message is written again (bumping the relayed counter again) on the very
next exchange; inbound processing and `send` only ever extend the queue;
and the only removal is TTL pruning — a message dropped by the
dispatch-maintenance step necessarily had age ≥ ttl. -/
theorem c10_relay_is_nondestructive (now : Int) (deser : List Nat → Option Message)
    (loc : Option Coordinates) (s : NodeState) (data : List Nat) (msg : Message) :
    (send_pending_messages s).1.pending_messages = s.pending_messages
    ∧ (∀ x ∈ (send_pending_messages s).2,
        x ∈ (send_pending_messages (send_pending_messages s).1).2)
    ∧ (send_pending_messages (send_pending_messages s).1).1.messages_relayed
        = s.messages_relayed
          + (send_pending_messages s).2.length + (send_pending_messages s).2.length
    ∧ (∀ x ∈ s.pending_messages,
        x ∈ (process_received_data deser now s data).1.pending_messages)
    ∧ (∀ x ∈ s.pending_messages,
        x ∈ (send_message now loc s msg).1.pending_messages)
    ∧ (∀ x ∈ s.pending_messages,
        x ∉ (message_processor_step now s).pending_messages → x.ttl ≤ now - x.timestamp) := by
  have hbatch : (send_pending_messages (send_pending_messages s).1).2
      = (send_pending_messages s).2 := by
    rw [spm_snd, spm_snd, spm_pending]
  refine ⟨spm_pending s, ?_, ?_, ?_, ?_, ?_⟩
  · intro x hx
    rw [hbatch]
    exact hx
  · rw [spm_relayed, hbatch, spm_relayed]
  · intro x hx
    unfold process_received_data
    cases hdd : deser data with
    | none => exact hx
    | some m =>
      simp only [process_parsed_message]
      split_ifs
      · exact hx
      · exact hx
      · exact hx
      · exact List.mem_append_left _ hx
  · intro x hx
    cases loc <;> exact List.mem_append_left _ hx
  · intro x hx hnot
    by_contra hlt
    exact hnot (by
      simp only [message_processor_step, List.mem_filter, decide_eq_true_eq]
      exact ⟨hx, by omega⟩)

/-- A node with one pending message. -/
def pendingNode : NodeState :=
  { emptyNode with pending_messages := [sampleMessage] }

/-- Witness for C10 at a concrete node: the queued message is still
written on the second consecutive exchange, and survives a `send`. -/
theorem c10_relay_is_nondestructive_witness :
    sampleMessage ∈ (send_pending_messages pendingNode).2
    ∧ sampleMessage ∈ (send_pending_messages (send_pending_messages pendingNode).1).2
    ∧ sampleMessage ∈ (send_message 1 none pendingNode sampleMessage).1.pending_messages :=
  ⟨by decide,
   (c10_relay_is_nondestructive 1 (fun _ => none) none pendingNode [] sampleMessage).2.1
     sampleMessage (by decide),
   (c10_relay_is_nondestructive 1 (fun _ => none) none pendingNode [] sampleMessage).2.2.2.2.1
     sampleMessage (by decide)⟩

/-! ### Claims about the message handler (router) -/

/-- A concrete FloodAlert message (CRITICAL priority, as in the model's
`FloodAlert` variant). -/
def floodAlertMsg : Message :=
  { id := "fa-1", type := .FLOOD_ALERT, priority := .CRITICAL, timestamp := 0,
    source_device_id := "origin", content := "flood level 5.2", coordinates := none,
    hop_count := 0, max_hops := 10, ttl := 3600, signature := none }

/-- A handler state with all queues empty and flood mode off. -/
def emptyHandler : HandlerState := { queues := fun _ => [], flood_mode := false }

/-- A handler table with a raising handler registered for FLOOD_ALERT. -/
def raisingFloodHandlers : MessageType → Option Bool :=
  fun t => if t = MessageType.FLOOD_ALERT then some true else none

/-- Claim C6 counterexample: with a raising type handler registered for
FLOOD_ALERT, `process_message` of a FloodAlert does NOT complete the
routing pipeline — the exception is caught by the outer `try`, the call
returns failure, and the flood-alert special handling (flood mode,
reprioritization) is skipped entirely. -/
theorem c6_type_handler_counterexample :
    raisingFloodHandlers floodAlertMsg.type = some true
    ∧ (process_message raisingFloodHandlers [] emptyHandler floodAlertMsg).result = false
    ∧ (process_message raisingFloodHandlers [] emptyHandler floodAlertMsg).floodHandled = false
    ∧ (process_message raisingFloodHandlers [] emptyHandler
        floodAlertMsg).state.flood_mode = false := by
  exact ⟨by decide, by decide, by decide, by decide⟩

/-- Accumulator lemma: `_handle_emergency_message` iterates over every
registered handler, raising ones included. -/
lemma hem_fold (emHandlers : List Bool) :
    ∀ acc : Nat × Nat,
      (emHandlers.foldl
        (fun (acc : Nat × Nat) raises =>
          (acc.1 + 1, if raises then acc.2 + 1 else acc.2)) acc).1
        = acc.1 + emHandlers.length := by
  induction emHandlers with
  | nil => intro acc; simp
  | cons r rest ih =>
      intro acc
      rw [List.foldl_cons, ih]
      simp only [List.length_cons]
      omega

/-- Every registered emergency handler is invoked, whether or not any of
them raises. -/
lemma hem_invokes_all (emHandlers : List Bool) :
    (handle_emergency_message emHandlers).1 = emHandlers.length := by
  unfold handle_emergency_message
  rw [hem_fold]
  simp

/-- Claim C6 (amended): failure isolation holds per EMERGENCY handler —
for a message with priority ≥ EMERGENCY every registered emergency
handler is invoked, raising ones included, and the routing pipeline then
completes (success, flood-alert handling) whenever the registered TYPE
handler does not raise.  A raising type handler, by contrast, aborts the
remainder of `process_message`: the message stays enqueued, but
flood-alert handling is skipped and the call reports failure. -/
theorem c6_emergency_handler_isolation (typeHandlers : MessageType → Option Bool)
    (emHandlers : List Bool) (s : HandlerState) (m : Message) :
    (Priority.EMERGENCY.val ≤ m.priority.val →
        (process_message typeHandlers emHandlers s m).emergencyInvoked
          = emHandlers.length)
    ∧ (typeHandlers m.type ≠ some true →
        (process_message typeHandlers emHandlers s m).result = true
        ∧ (process_message typeHandlers emHandlers s m).floodHandled
            = decide (m.type = MessageType.FLOOD_ALERT))
    ∧ (typeHandlers m.type = some true →
        (process_message typeHandlers emHandlers s m).result = false
        ∧ (process_message typeHandlers emHandlers s m).floodHandled = false
        ∧ (process_message typeHandlers emHandlers s m).state = enqueue s m) := by
  refine ⟨?_, ?_, ?_⟩
  · intro hpr
    unfold process_message
    cases htt : typeHandlers m.type with
    | none => simp [htt, hpr, hem_invokes_all]
    | some b => cases b <;> simp [htt, hpr, hem_invokes_all]
  · intro hne
    unfold process_message
    cases htt : typeHandlers m.type with
    | none => simp [htt]
    | some b =>
        cases b
        · simp [htt]
        · exact absurd htt hne
  · intro heq
    unfold process_message
    simp [heq]

/-- Two registered emergency handlers, the first of which raises. -/
def mixedEmHandlers : List Bool := [true, false]

/-- Witness for the amended C6: with a raising first emergency handler
and no type handler, both emergency handlers are invoked and the call
still succeeds (flood handling included). -/
theorem c6_emergency_handler_isolation_witness :
    Priority.EMERGENCY.val ≤ floodAlertMsg.priority.val
    ∧ ((fun _ => (none : Option Bool)) floodAlertMsg.type ≠ some true)
    ∧ (process_message (fun _ => none) mixedEmHandlers emptyHandler
        floodAlertMsg).emergencyInvoked = 2
    ∧ (process_message (fun _ => none) mixedEmHandlers emptyHandler
        floodAlertMsg).result = true :=
  ⟨by decide, by decide,
   by
     rw [(c6_emergency_handler_isolation (fun _ => none) mixedEmHandlers emptyHandler
       floodAlertMsg).1 (by decide)]
     rfl,
   ((c6_emergency_handler_isolation (fun _ => none) mixedEmHandlers emptyHandler
       floodAlertMsg).2.1 (by decide)).1⟩

/-! ### The flood reprioritization sweep (claim C4)

`_reprioritize_flood_messages` first collects the keyword-matching
messages of a bucket and then, message by message, removes each from the
bucket and appends it (with priority overwritten) to the EMERGENCY
bucket.  The lemmas below characterize that remove/append fold. -/

/-- One move out of a non-EMERGENCY bucket `p`, seen from bucket `p`. -/
lemma moveOne_apply_self (q : Queues) (p : Priority)
    (hp : ¬ p = Priority.EMERGENCY) (m : Message) :
    moveOne q p m p = (q p).erase m := by
  simp [moveOne, qUpdate, hp]

/-- One move out of a non-EMERGENCY bucket `p`, seen from EMERGENCY. -/
lemma moveOne_apply_em (q : Queues) (p : Priority)
    (hp : ¬ p = Priority.EMERGENCY) (m : Message) :
    moveOne q p m Priority.EMERGENCY
      = q Priority.EMERGENCY ++ [m.setEmergency] := by
  have h' : ¬ Priority.EMERGENCY = p := fun h => hp h.symm
  simp [moveOne, qUpdate, h']

/-- One move out of bucket `p`, seen from any third bucket. -/
lemma moveOne_apply_other (q : Queues) (p p' : Priority) (m : Message)
    (h1 : ¬ p' = p) (h2 : ¬ p' = Priority.EMERGENCY) :
    moveOne q p m p' = q p' := by
  simp [moveOne, qUpdate, h1, h2]

/-- One move within the EMERGENCY bucket itself: erase, then re-append
with the priority overwritten. -/
lemma moveOne_em_apply_em (q : Queues) (m : Message) :
    moveOne q Priority.EMERGENCY m Priority.EMERGENCY
      = (q Priority.EMERGENCY).erase m ++ [m.setEmergency] := by
  simp [moveOne, qUpdate]

/-- Folding `erase` over a list of values all different from the head
commutes with the head. -/
lemma foldl_erase_cons_of_ne (a : Message) :
    ∀ (ms acc : List Message), (∀ x ∈ ms, x ≠ a) →
      ms.foldl (fun l x => l.erase x) (a :: acc)
        = a :: ms.foldl (fun l x => l.erase x) acc := by
  intro ms
  induction ms with
  | nil => intro acc h; rfl
  | cons m rest ih =>
      intro acc h
      have hma : a ≠ m := Ne.symm (h m (List.mem_cons_self m rest))
      rw [List.foldl_cons, List.foldl_cons, List.erase_cons_tail (by simp [hma])]
      exact ih (acc.erase m) (fun x hx => h x (List.mem_cons_of_mem m hx))

/-- Erasing, one by one, every `f`-matching element of `l` from `l`
leaves exactly the non-matching elements, in order. -/
lemma foldl_erase_filter (f : Message → Bool) :
    ∀ l : List Message,
      (l.filter f).foldl (fun acc x => acc.erase x) l
        = l.filter (fun x => !f x) := by
  intro l
  induction l with
  | nil => rfl
  | cons a t ih =>
      by_cases ha : f a
      · rw [List.filter_cons_of_pos ha, List.foldl_cons, List.erase_cons_head,
          List.filter_cons_of_neg (by simp [ha])]
        exact ih
      · rw [List.filter_cons_of_neg ha,
          foldl_erase_cons_of_ne a (t.filter f) t
            (fun x hx hxa => ha (hxa ▸ (List.mem_filter.mp hx).2)),
          List.filter_cons_of_pos (by simp [Bool.not_eq_true] at ha ⊢; exact ha)]
        rw [ih]

/-- During the sweep of a non-EMERGENCY bucket `p`, bucket `p` itself
accumulates the erasures. -/
lemma foldl_moveOne_apply_self (p : Priority) (hp : ¬ p = Priority.EMERGENCY) :
    ∀ (ms : List Message) (q : Queues),
      (ms.foldl (fun acc m => moveOne acc p m) q) p
        = ms.foldl (fun l x => l.erase x) (q p) := by
  intro ms
  induction ms with
  | nil => intro q; rfl
  | cons m rest ih =>
      intro q
      rw [List.foldl_cons, List.foldl_cons, ih, moveOne_apply_self q p hp m]

/-- During the sweep of a non-EMERGENCY bucket `p`, the EMERGENCY bucket
accumulates the moved messages, priority overwritten, in order. -/
lemma foldl_moveOne_apply_em (p : Priority) (hp : ¬ p = Priority.EMERGENCY) :
    ∀ (ms : List Message) (q : Queues),
      (ms.foldl (fun acc m => moveOne acc p m) q) Priority.EMERGENCY
        = q Priority.EMERGENCY ++ ms.map Message.setEmergency := by
  intro ms
  induction ms with
  | nil => intro q; simp
  | cons m rest ih =>
      intro q
      rw [List.foldl_cons, ih, moveOne_apply_em q p hp m, List.map_cons,
        List.append_assoc, List.singleton_append]

/-- The sweep of bucket `p` touches no bucket other than `p` and
EMERGENCY. -/
lemma foldl_moveOne_apply_other (p p' : Priority) (h1 : ¬ p' = p)
    (h2 : ¬ p' = Priority.EMERGENCY) :
    ∀ (ms : List Message) (q : Queues),
      (ms.foldl (fun acc m => moveOne acc p m) q) p' = q p' := by
  intro ms
  induction ms with
  | nil => intro q; rfl
  | cons m rest ih =>
      intro q
      rw [List.foldl_cons, ih, moveOne_apply_other q p p' m h1 h2]

/-- Sweeping the EMERGENCY bucket touches no other bucket. -/
lemma foldl_moveOne_em_other (p' : Priority) (h : ¬ p' = Priority.EMERGENCY) :
    ∀ (ms : List Message) (q : Queues),
      (ms.foldl (fun acc m => moveOne acc Priority.EMERGENCY m) q) p' = q p' := by
  intro ms
  induction ms with
  | nil => intro q; rfl
  | cons m rest ih =>
      intro q
      rw [List.foldl_cons, ih, moveOne_apply_other q Priority.EMERGENCY p' m h h]

/-- Sweeping the EMERGENCY bucket over messages that are already at
EMERGENCY priority (so the overwrite is the identity) and that are
actually present only permutes the bucket. -/
lemma foldl_moveOne_em_perm :
    ∀ (ms : List Message) (q : Queues),
      (∀ x ∈ ms, x.setEmergency = x) →
      List.Subperm ms (q Priority.EMERGENCY) →
      ((ms.foldl (fun acc m => moveOne acc Priority.EMERGENCY m) q)
          Priority.EMERGENCY).Perm (q Priority.EMERGENCY) := by
  intro ms
  induction ms with
  | nil => intro q _ _; exact List.Perm.refl _
  | cons m rest ih =>
      intro q hset hsub
      have hm : m ∈ q Priority.EMERGENCY := hsub.subset (List.mem_cons_self m rest)
      have hperm : ((moveOne q Priority.EMERGENCY m) Priority.EMERGENCY).Perm
          (q Priority.EMERGENCY) := by
        rw [moveOne_em_apply_em, hset m (List.mem_cons_self m rest)]
        exact (List.perm_append_singleton m _).trans (List.perm_cons_erase hm).symm
      have hsub' : List.Subperm rest ((moveOne q Priority.EMERGENCY m) Priority.EMERGENCY) := by
        rw [List.subperm_ext_iff]
        intro x hx
        have h1 : List.count x rest ≤ List.count x (m :: rest) := by
          rw [List.count_cons]
          omega
        have h2 : List.count x (m :: rest) ≤ List.count x (q Priority.EMERGENCY) :=
          hsub.count_le x
        have h3 : List.count x ((moveOne q Priority.EMERGENCY m) Priority.EMERGENCY)
            = List.count x (q Priority.EMERGENCY) := hperm.count_eq x
        omega
      rw [List.foldl_cons]
      exact (ih (moveOne q Priority.EMERGENCY m)
        (fun x hx => hset x (List.mem_cons_of_mem m hx)) hsub').trans hperm

/-- `reprioStep` on a non-EMERGENCY bucket `p`, seen from `p`: exactly
the keyword-matching messages are removed, in place. -/
lemma reprioStep_apply_self (q : Queues) (p : Priority)
    (hp : ¬ p = Priority.EMERGENCY) :
    reprioStep q p p = (q p).filter (fun x => ! matchesFloodKeyword x) := by
  unfold reprioStep
  rw [foldl_moveOne_apply_self p hp, foldl_erase_filter]

/-- `reprioStep` on a non-EMERGENCY bucket `p`, seen from EMERGENCY: the
matching messages are appended, their priority overwritten. -/
lemma reprioStep_apply_em (q : Queues) (p : Priority)
    (hp : ¬ p = Priority.EMERGENCY) :
    reprioStep q p Priority.EMERGENCY
      = q Priority.EMERGENCY
        ++ ((q p).filter matchesFloodKeyword).map Message.setEmergency := by
  unfold reprioStep
  rw [foldl_moveOne_apply_em p hp]

/-- `reprioStep` on bucket `p` leaves every third bucket unchanged. -/
lemma reprioStep_apply_other (q : Queues) (p p' : Priority) (h1 : ¬ p' = p)
    (h2 : ¬ p' = Priority.EMERGENCY) :
    reprioStep q p p' = q p' := by
  unfold reprioStep
  rw [foldl_moveOne_apply_other p p' h1 h2]

/-- `reprioStep` on the EMERGENCY bucket leaves other buckets unchanged. -/
lemma reprioStep_em_other (q : Queues) (p' : Priority)
    (h : ¬ p' = Priority.EMERGENCY) :
    reprioStep q Priority.EMERGENCY p' = q p' := by
  unfold reprioStep
  rw [foldl_moveOne_em_other p' h]

/-- Overwriting the priority of a message already at EMERGENCY is the
identity. -/
lemma setEmergency_eq_self (x : Message) (h : x.priority = Priority.EMERGENCY) :
    x.setEmergency = x := by
  unfold Message.setEmergency
  cases x
  simp_all

/-- `reprioStep` on the EMERGENCY bucket permutes it, provided every
message sitting there already has EMERGENCY priority. -/
lemma reprioStep_em_perm (q : Queues)
    (hq : ∀ x ∈ q Priority.EMERGENCY, x.priority = Priority.EMERGENCY) :
    (reprioStep q Priority.EMERGENCY Priority.EMERGENCY).Perm
      (q Priority.EMERGENCY) := by
  unfold reprioStep
  refine foldl_moveOne_em_perm _ q ?_ ((List.filter_sublist _).subperm)
  intro x hx
  exact setEmergency_eq_self x (hq x (List.mem_filter.mp hx).1)

/-- Full characterization of `_reprioritize_flood_messages`, under the
router's invariant that the EMERGENCY bucket only holds messages whose
priority field is EMERGENCY: (i) every non-EMERGENCY bucket keeps
exactly its non-matching messages, in order, unchanged; (ii) the
EMERGENCY bucket grows by exactly the number of matching messages held
elsewhere; (iii) every matching message, priority overwritten to
EMERGENCY, ends up in the EMERGENCY bucket; (iv) every message of the
EMERGENCY bucket is retained. -/
lemma reprioritize_spec (q : Queues)
    (hinv : ∀ x ∈ q Priority.EMERGENCY, x.priority = Priority.EMERGENCY) :
    (∀ p, ¬ p = Priority.EMERGENCY →
        reprioritize_flood_messages q p
          = (q p).filter (fun x => ! matchesFloodKeyword x))
    ∧ (reprioritize_flood_messages q Priority.EMERGENCY).length
        = (q Priority.EMERGENCY).length
          + ((q Priority.LOW).filter matchesFloodKeyword).length
          + ((q Priority.NORMAL).filter matchesFloodKeyword).length
          + ((q Priority.HIGH).filter matchesFloodKeyword).length
          + ((q Priority.CRITICAL).filter matchesFloodKeyword).length
    ∧ (∀ p, ∀ x ∈ q p, matchesFloodKeyword x = true →
        x.setEmergency ∈ reprioritize_flood_messages q Priority.EMERGENCY)
    ∧ (∀ x ∈ q Priority.EMERGENCY,
        x ∈ reprioritize_flood_messages q Priority.EMERGENCY) := by
  have hfold : reprioritize_flood_messages q
      = reprioStep (reprioStep (reprioStep (reprioStep (reprioStep q
          Priority.LOW) Priority.NORMAL) Priority.HIGH) Priority.EMERGENCY)
          Priority.CRITICAL := rfl
  set q1 := reprioStep q Priority.LOW with hq1
  set q2 := reprioStep q1 Priority.NORMAL with hq2
  set q3 := reprioStep q2 Priority.HIGH with hq3
  set q4 := reprioStep q3 Priority.EMERGENCY with hq4
  set q5 := reprioStep q4 Priority.CRITICAL with hq5
  -- level 1: sweep of the LOW bucket
  have e1L : q1 Priority.LOW
      = (q Priority.LOW).filter (fun x => ! matchesFloodKeyword x) :=
    reprioStep_apply_self q Priority.LOW (by decide)
  have e1N : q1 Priority.NORMAL = q Priority.NORMAL :=
    reprioStep_apply_other q Priority.LOW Priority.NORMAL (by decide) (by decide)
  have e1H : q1 Priority.HIGH = q Priority.HIGH :=
    reprioStep_apply_other q Priority.LOW Priority.HIGH (by decide) (by decide)
  have e1C : q1 Priority.CRITICAL = q Priority.CRITICAL :=
    reprioStep_apply_other q Priority.LOW Priority.CRITICAL (by decide) (by decide)
  have e1E : q1 Priority.EMERGENCY
      = q Priority.EMERGENCY
        ++ ((q Priority.LOW).filter matchesFloodKeyword).map Message.setEmergency :=
    reprioStep_apply_em q Priority.LOW (by decide)
  -- level 2: sweep of the NORMAL bucket
  have e2L : q2 Priority.LOW = q1 Priority.LOW :=
    reprioStep_apply_other q1 Priority.NORMAL Priority.LOW (by decide) (by decide)
  have e2N : q2 Priority.NORMAL
      = (q Priority.NORMAL).filter (fun x => ! matchesFloodKeyword x) := by
    rw [hq2, reprioStep_apply_self q1 Priority.NORMAL (by decide), e1N]
  have e2H : q2 Priority.HIGH = q Priority.HIGH := by
    rw [hq2, reprioStep_apply_other q1 Priority.NORMAL Priority.HIGH (by decide) (by decide), e1H]
  have e2C : q2 Priority.CRITICAL = q Priority.CRITICAL := by
    rw [hq2, reprioStep_apply_other q1 Priority.NORMAL Priority.CRITICAL (by decide) (by decide),
      e1C]
  have e2E : q2 Priority.EMERGENCY
      = q1 Priority.EMERGENCY
        ++ ((q Priority.NORMAL).filter matchesFloodKeyword).map Message.setEmergency := by
    rw [hq2, reprioStep_apply_em q1 Priority.NORMAL (by decide), e1N]
  -- level 3: sweep of the HIGH bucket
  have e3L : q3 Priority.LOW = q1 Priority.LOW := by
    rw [hq3, reprioStep_apply_other q2 Priority.HIGH Priority.LOW (by decide) (by decide), e2L]
  have e3N : q3 Priority.NORMAL = q2 Priority.NORMAL :=
    reprioStep_apply_other q2 Priority.HIGH Priority.NORMAL (by decide) (by decide)
  have e3H : q3 Priority.HIGH
      = (q Priority.HIGH).filter (fun x => ! matchesFloodKeyword x) := by
    rw [hq3, reprioStep_apply_self q2 Priority.HIGH (by decide), e2H]
  have e3C : q3 Priority.CRITICAL = q Priority.CRITICAL := by
    rw [hq3, reprioStep_apply_other q2 Priority.HIGH Priority.CRITICAL (by decide) (by decide),
      e2C]
  have e3E : q3 Priority.EMERGENCY
      = q2 Priority.EMERGENCY
        ++ ((q Priority.HIGH).filter matchesFloodKeyword).map Message.setEmergency := by
    rw [hq3, reprioStep_apply_em q2 Priority.HIGH (by decide), e2H]
  -- the EMERGENCY bucket after the first three sweeps is well-formed
  have hinv3 : ∀ x ∈ q3 Priority.EMERGENCY, x.priority = Priority.EMERGENCY := by
    intro x hx
    rw [e3E, e2E, e1E, List.append_assoc, List.append_assoc] at hx
    rcases List.mem_append.mp hx with hx | hx
    · exact hinv x hx
    · rcases List.mem_append.mp hx with hx | hx
      · obtain ⟨y, _, rfl⟩ := List.mem_map.mp hx
        rfl
      · rcases List.mem_append.mp hx with hx | hx
        · obtain ⟨y, _, rfl⟩ := List.mem_map.mp hx
          rfl
        · obtain ⟨y, _, rfl⟩ := List.mem_map.mp hx
          rfl
  -- level 4: sweep of the EMERGENCY bucket itself (a permutation)
  have e4L : q4 Priority.LOW = q1 Priority.LOW := by
    rw [hq4, reprioStep_em_other q3 Priority.LOW (by decide), e3L]
  have e4N : q4 Priority.NORMAL = q2 Priority.NORMAL := by
    rw [hq4, reprioStep_em_other q3 Priority.NORMAL (by decide), e3N]
  have e4H : q4 Priority.HIGH = q3 Priority.HIGH :=
    reprioStep_em_other q3 Priority.HIGH (by decide)
  have e4C : q4 Priority.CRITICAL = q Priority.CRITICAL := by
    rw [hq4, reprioStep_em_other q3 Priority.CRITICAL (by decide), e3C]
  have e4E : (q4 Priority.EMERGENCY).Perm (q3 Priority.EMERGENCY) :=
    reprioStep_em_perm q3 hinv3
  -- level 5: sweep of the CRITICAL bucket
  have e5L : q5 Priority.LOW = q1 Priority.LOW := by
    rw [hq5, reprioStep_apply_other q4 Priority.CRITICAL Priority.LOW (by decide) (by decide),
      e4L]
  have e5N : q5 Priority.NORMAL = q2 Priority.NORMAL := by
    rw [hq5, reprioStep_apply_other q4 Priority.CRITICAL Priority.NORMAL (by decide) (by decide),
      e4N]
  have e5H : q5 Priority.HIGH = q3 Priority.HIGH := by
    rw [hq5, reprioStep_apply_other q4 Priority.CRITICAL Priority.HIGH (by decide) (by decide),
      e4H]
  have e5C : q5 Priority.CRITICAL
      = (q Priority.CRITICAL).filter (fun x => ! matchesFloodKeyword x) := by
    rw [hq5, reprioStep_apply_self q4 Priority.CRITICAL (by decide), e4C]
  have e5E : q5 Priority.EMERGENCY
      = q4 Priority.EMERGENCY
        ++ ((q Priority.CRITICAL).filter matchesFloodKeyword).map Message.setEmergency := by
    rw [hq5, reprioStep_apply_em q4 Priority.CRITICAL (by decide), e4C]
  refine ⟨?_, ?_, ?_, ?_⟩
  · intro p hp
    rw [hfold]
    cases p with
    | LOW => rw [e5L, e1L]
    | NORMAL => rw [e5N, e2N]
    | HIGH => rw [e5H, e3H]
    | EMERGENCY => exact absurd rfl hp
    | CRITICAL => rw [e5C]
  · rw [hfold, e5E, List.length_append, e4E.length_eq, e3E, e2E, e1E]
    simp only [List.length_append, List.length_map]
  · intro p x hx hmatch
    rw [hfold]
    cases p with
    | LOW =>
        have h1 : x.setEmergency
            ∈ ((q Priority.LOW).filter matchesFloodKeyword).map Message.setEmergency :=
          List.mem_map_of_mem _ (List.mem_filter.mpr ⟨hx, hmatch⟩)
        have h3 : x.setEmergency ∈ q3 Priority.EMERGENCY := by
          rw [e3E, e2E, e1E]
          exact List.mem_append_left _
            (List.mem_append_left _ (List.mem_append_right _ h1))
        rw [e5E]
        exact List.mem_append_left _ (e4E.mem_iff.mpr h3)
    | NORMAL =>
        have h1 : x.setEmergency
            ∈ ((q Priority.NORMAL).filter matchesFloodKeyword).map Message.setEmergency :=
          List.mem_map_of_mem _ (List.mem_filter.mpr ⟨hx, hmatch⟩)
        have h3 : x.setEmergency ∈ q3 Priority.EMERGENCY := by
          rw [e3E, e2E]
          exact List.mem_append_left _ (List.mem_append_right _ h1)
        rw [e5E]
        exact List.mem_append_left _ (e4E.mem_iff.mpr h3)
    | HIGH =>
        have h1 : x.setEmergency
            ∈ ((q Priority.HIGH).filter matchesFloodKeyword).map Message.setEmergency :=
          List.mem_map_of_mem _ (List.mem_filter.mpr ⟨hx, hmatch⟩)
        have h3 : x.setEmergency ∈ q3 Priority.EMERGENCY := by
          rw [e3E]
          exact List.mem_append_right _ h1
        rw [e5E]
        exact List.mem_append_left _ (e4E.mem_iff.mpr h3)
    | EMERGENCY =>
        rw [setEmergency_eq_self x (hinv x hx)]
        have h3 : x ∈ q3 Priority.EMERGENCY := by
          rw [e3E, e2E, e1E]
          exact List.mem_append_left _
            (List.mem_append_left _ (List.mem_append_left _ hx))
        rw [e5E]
        exact List.mem_append_left _ (e4E.mem_iff.mpr h3)
    | CRITICAL =>
        have h1 : x.setEmergency
            ∈ ((q Priority.CRITICAL).filter matchesFloodKeyword).map Message.setEmergency :=
          List.mem_map_of_mem _ (List.mem_filter.mpr ⟨hx, hmatch⟩)
        rw [e5E]
        exact List.mem_append_right _ h1
  · intro x hx
    rw [hfold]
    have h3 : x ∈ q3 Priority.EMERGENCY := by
      rw [e3E, e2E, e1E]
      exact List.mem_append_left _
        (List.mem_append_left _ (List.mem_append_left _ hx))
    rw [e5E]
    exact List.mem_append_left _ (e4E.mem_iff.mpr h3)

/-- Claim C4: after `process_message` handles any FloodAlert (given that
no raising type handler aborts the call, and under the router invariant
that the EMERGENCY bucket only holds EMERGENCY-priority messages),
flood mode is on and the one-shot reprioritization sweep has run over
the queues as they stood with the alert enqueued: every non-EMERGENCY
bucket keeps exactly its keyword-free messages (same order, same
priority), the EMERGENCY bucket has grown by exactly the number of
keyword-matching messages queued elsewhere, and every keyword-matching
queued message — in particular a LOW-priority one containing
"evacuation" — now sits in the EMERGENCY bucket with its priority field
overwritten to EMERGENCY, while every message already in the EMERGENCY
bucket is retained. -/
theorem c4_flood_reprioritization (typeHandlers : MessageType → Option Bool)
    (emHandlers : List Bool) (s : HandlerState) (m : Message)
    (hm : m.type = MessageType.FLOOD_ALERT)
    (hTh : typeHandlers m.type ≠ some true)
    (hinv : ∀ x ∈ s.queues Priority.EMERGENCY, x.priority = Priority.EMERGENCY) :
    (process_message typeHandlers emHandlers s m).state.flood_mode = true
    ∧ (process_message typeHandlers emHandlers s m).state.queues
        = reprioritize_flood_messages ((enqueue s m).queues)
    ∧ (∀ p, ¬ p = Priority.EMERGENCY →
        (process_message typeHandlers emHandlers s m).state.queues p
          = ((enqueue s m).queues p).filter (fun x => ! matchesFloodKeyword x))
    ∧ ((process_message typeHandlers emHandlers s m).state.queues
          Priority.EMERGENCY).length
        = ((enqueue s m).queues Priority.EMERGENCY).length
          + (((enqueue s m).queues Priority.LOW).filter matchesFloodKeyword).length
          + (((enqueue s m).queues Priority.NORMAL).filter matchesFloodKeyword).length
          + (((enqueue s m).queues Priority.HIGH).filter matchesFloodKeyword).length
          + (((enqueue s m).queues Priority.CRITICAL).filter matchesFloodKeyword).length
    ∧ (∀ p, ∀ x ∈ (enqueue s m).queues p, matchesFloodKeyword x = true →
        x.setEmergency
          ∈ (process_message typeHandlers emHandlers s m).state.queues Priority.EMERGENCY)
    ∧ (∀ x ∈ (enqueue s m).queues Priority.EMERGENCY,
        x ∈ (process_message typeHandlers emHandlers s m).state.queues
              Priority.EMERGENCY) := by
  have hstate : (process_message typeHandlers emHandlers s m).state
      = handle_flood_alert (enqueue s m) := by
    unfold process_message
    cases htt : typeHandlers m.type with
    | none => simp [hm]
    | some b =>
        cases b
        · simp [hm]
        · exact absurd htt hTh
  have hinv1 : ∀ x ∈ (enqueue s m).queues Priority.EMERGENCY,
      x.priority = Priority.EMERGENCY := by
    intro x hx
    unfold enqueue qUpdate at hx
    dsimp only at hx
    by_cases hpm : Priority.EMERGENCY = m.priority
    · rw [if_pos hpm] at hx
      rcases List.mem_append.mp hx with hx | hx
      · exact hinv x (hpm.symm ▸ hx)
      · rw [List.mem_singleton.mp hx]
        exact hpm.symm
    · rw [if_neg hpm] at hx
      exact hinv x hx
  have hq : (process_message typeHandlers emHandlers s m).state.queues
      = reprioritize_flood_messages ((enqueue s m).queues) := by
    rw [hstate]
    rfl
  have hflood : (process_message typeHandlers emHandlers s m).state.flood_mode = true := by
    rw [hstate]
    rfl
  obtain ⟨hA, hB, hC, hD⟩ := reprioritize_spec ((enqueue s m).queues) hinv1
  refine ⟨hflood, hq, ?_, ?_, ?_, ?_⟩
  · intro p hp
    rw [hq]
    exact hA p hp
  · rw [hq]
    exact hB
  · intro p x hx hmatch
    rw [hq]
    exact hC p x hx hmatch
  · intro x hx
    rw [hq]
    exact hD x hx

/-- A LOW-priority message whose content mentions evacuation. -/
def evacMsg : Message :=
  { id := "low-1", type := .STATUS_UPDATE, priority := .LOW, timestamp := 0,
    source_device_id := "origin", content := "Evacuation route 7 is open",
    coordinates := none, hop_count := 0, max_hops := 10, ttl := 3600,
    signature := none }

/-- A NORMAL-priority message with no flood keyword. -/
def plainMsg : Message :=
  { id := "norm-1", type := .STATUS_UPDATE, priority := .NORMAL, timestamp := 0,
    source_device_id := "origin", content := "water levels nominal",
    coordinates := none, hop_count := 0, max_hops := 10, ttl := 3600,
    signature := none }

/-- A router state holding the two messages in their matching buckets. -/
def floodHandlerState : HandlerState :=
  { queues := fun p =>
      match p with
      | Priority.LOW => [evacMsg]
      | Priority.NORMAL => [plainMsg]
      | _ => []
    flood_mode := false }

/-- Witness for C4 at a concrete router state: processing a FloodAlert
turns flood mode on, moves the LOW "evacuation" message (priority
overwritten) into the EMERGENCY bucket — whose depth becomes exactly 1 —
and removes it from the LOW bucket. -/
theorem c4_flood_reprioritization_witness :
    matchesFloodKeyword evacMsg = true
    ∧ (process_message (fun _ => none) [] floodHandlerState
        floodAlertMsg).state.flood_mode = true
    ∧ evacMsg.setEmergency
        ∈ (process_message (fun _ => none) [] floodHandlerState
            floodAlertMsg).state.queues Priority.EMERGENCY
    ∧ evacMsg ∉ (process_message (fun _ => none) [] floodHandlerState
            floodAlertMsg).state.queues Priority.LOW
    ∧ ((process_message (fun _ => none) [] floodHandlerState
            floodAlertMsg).state.queues Priority.EMERGENCY).length = 1 := by
  refine ⟨by decide, ?_, ?_, ?_, ?_⟩
  · exact (c4_flood_reprioritization (fun _ => none) [] floodHandlerState floodAlertMsg
      rfl (by decide) (by decide)).1
  · exact (c4_flood_reprioritization (fun _ => none) [] floodHandlerState floodAlertMsg
      rfl (by decide) (by decide)).2.2.2.2.1 Priority.LOW evacMsg (by decide) (by decide)
  · rw [(c4_flood_reprioritization (fun _ => none) [] floodHandlerState floodAlertMsg
      rfl (by decide) (by decide)).2.2.1 Priority.LOW (by decide)]
    decide
  · rw [(c4_flood_reprioritization (fun _ => none) [] floodHandlerState floodAlertMsg
      rfl (by decide) (by decide)).2.2.2.1]
    decide

end DisasterMesh
